import Mathlib

/-!
# Shallow embedding of the perspective bar controller

This file embeds the perspective lifecycle controller of
`src/perspectives/bar.tsx` (class `PerspectiveBar`) from the
`react-flexible-workbench` repository, together with the parts of its
collaborator contracts that the controller exercises, and proves or refutes
the frozen claims about it.

Modelling conventions:

* The component's React state (`IPerspectiveBarState`) and its instance
  fields (`_ignoreStateChangeCounter`, `_lastState`, `_storage`,
  `_workbench`) are gathered into one `PerspectiveBar` record.
* Asynchronous controller operations are modelled as pure functions
  returning a `Res`: the component after the operation, the ordered trace of
  the asynchronous storage-backend calls, workbench restores, environment
  prompts, and `console.warn` diagnostics it performed, and an optional
  thrown JavaScript error (a `TypeError` from dereferencing an absent
  collaborator, or a rejected storage promise).  The synchronous
  `storage.isModified` query is modelled as a pure oracle read and is not
  traced, matching its contract ("synchronous boolean query").
* The list enumeration started by `_startLoadingIfNeeded` is split into the
  start (which records the `storage.map` call and stores the promise) and
  the later completion (`.then` success / failure continuations), so that
  interleavings of overlapping enumerations can be expressed exactly as the
  source allows them.
* React discards `setState` calls on an unmounted component instance; this
  framework behaviour is modelled by the `mounted` flag guarding
  `setBarState`.  Writes to plain instance fields are not guarded, exactly
  as in JavaScript.
* Storage and workbench collaborator objects are compared by reference in
  the source (`this._storage === value`); references are modelled by the
  numeric identities `sid` / `wid`.
* The workbench `stateChanged` notification triggered by
  `workbench.restoreState` is modelled as delivered asynchronously, i.e. by
  applying `onWorkbenchChanged` to the component after the triggering
  operation finished.
-/

/-- Modelled from the spec: `WorkbenchState` is "an opaque, serializable
snapshot of panel layout plus a 'selection' sub-field that is semantically
distinct from layout content" (the concrete type lives in `src/types`,
which is not among the sources).  The opaque layout content is modelled as
an association list of string keys to numeric values, the selection
sub-field as an optional string. -/
structure IWorkbenchState where
  content : List (String × Nat)
  selection : Option String
deriving DecidableEq, Repr

/-- Modelled from the spec: `src/perspectives/compare.ts`
(`areWorkbenchStatesEqualIgnoringSelection`) is not among the sources; the
spec requires a pure, total comparison that "must treat the selection
sub-field as excluded from comparison and perform a structural (deep)
comparison of every other field". -/
def areWorkbenchStatesEqualIgnoringSelection (a b : IWorkbenchState) : Bool :=
  a.content == b.content

/-- A perspective, from `src/perspectives/perspective.ts` (`IPerspective`). -/
structure IPerspective where
  label : String
  state : IWorkbenchState
  color : Option String := none
  icon : Option String := none
deriving DecidableEq, Repr

/-- One observable action of the controller: an asynchronous call into the
storage backend, a workbench state restore, an environment prompt, a
subscription change, or a `console.warn` diagnostic. -/
inductive Call where
  | load (id : String)
  | save (p : IPerspective)
  | update (id : String) (st : IWorkbenchState)
  | persistModifications (id : String)
  | revertModifications (id : String)
  | enumerate
  | subscribe
  | unsubscribe
  | wbOn
  | wbOff
  | restoreState (st : IWorkbenchState)
  | envConfirm (msg : String)
  | envOnCreating (draft : IPerspective)
  | warn (msg : String)
deriving DecidableEq, Repr

/-- Whether a traced action is a call into the storage backend. -/
def Call.isStorageOp : Call → Bool
  | .load _ => true
  | .save _ => true
  | .update _ _ => true
  | .persistModifications _ => true
  | .revertModifications _ => true
  | .enumerate => true
  | .subscribe => true
  | .unsubscribe => true
  | _ => false

/-- Whether a traced action is a `storage.update` write. -/
def Call.isUpdate : Call → Bool
  | .update _ _ => true
  | _ => false

/-- The storage calls of a trace, in order. -/
def storageOps (tr : List Call) : List Call :=
  tr.filter Call.isStorageOp

/-- Whether a trace contains a `storage.update` write. -/
def hasUpdate (tr : List Call) : Bool :=
  tr.any Call.isUpdate

/-- Number of enumerations (`storage.map` calls) in a trace. -/
def countEnumerations (tr : List Call) : Nat :=
  (tr.filter fun c => c == Call.enumerate).length

/-- Modelled from the spec: the `IPerspectiveStorage` contract
(`src/perspectives/storage.ts` is not among the sources).  Results of the
asynchronous operations are given by oracle functions; `none` models a
rejected promise.  `sid` models the object's reference identity. -/
structure Storage where
  sid : Nat
  loadFn : String → Option IPerspective
  saveFn : IPerspective → String
  isModifiedFn : Option String → Bool
  enumerateFn : Option (List (String × IPerspective))

/-- Modelled from the spec: the workbench contract (`src/workbench` is not
among the sources).  `getStateFn` is the current state snapshot,
`restoredView` gives what `getState` returns right after
`restoreState s` was applied (the source notes "there are extra keys there
compared to perspective.state"), `envConfirm` answers
`environment.confirm`, and `onCreating` answers
`environment.onCreatingNewPerspective` with the confirmation flag and the
(possibly enriched in place) draft.  `wid` models reference identity. -/
structure Workbench where
  wid : Nat
  getStateFn : IWorkbenchState
  restoredView : IWorkbenchState → IWorkbenchState
  envConfirm : Bool
  onCreating : IPerspective → Bool × IPerspective

/-- Props of the perspective bar (`IPerspectiveBarProps`).
`hasSelectedPerspectiveId` models
`props.hasOwnProperty("selectedPerspectiveId")`: the component is
controlled exactly when the prop key is present. -/
structure Props where
  onChange : Option (String → Bool)
  hasSelectedPerspectiveId : Bool
  selectedPerspectiveId : Option String := none
  storage : Option Storage
  workbench : Option Workbench

/-- React state of the component (`IPerspectiveBarState`).  `promise`
records whether a loading promise is currently stored (the source keeps
the promise object itself; only its presence is ever tested). -/
structure IPerspectiveBarState where
  counter : Nat
  error : Bool
  perspectives : Option (List (String × IPerspective))
  promise : Bool
  selectedPerspectiveId : Option String
deriving DecidableEq, Repr

/-- The component: React state plus instance fields.  `mounted` tracks
whether the instance is still mounted (React discards `setState` on an
unmounted instance). -/
structure PerspectiveBar where
  mounted : Bool
  ignoreStateChangeCounter : Nat
  lastState : Option IWorkbenchState
  storageRef : Option Nat
  workbenchRef : Option Nat
  state : IPerspectiveBarState
deriving DecidableEq, Repr

/-- Result of one controller operation: the component afterwards, the trace
of observable actions, and an optional thrown error (the component is the
state at the throw point when `thrown` is set). -/
structure Res where
  bar : PerspectiveBar
  trace : List Call
  thrown : Option String
deriving DecidableEq, Repr

/-- `this.setState(...)`: applies the update only while mounted. -/
def setBarState (bar : PerspectiveBar)
    (f : IPerspectiveBarState → IPerspectiveBarState) : PerspectiveBar :=
  if bar.mounted then { bar with state := f bar.state } else bar

/-- The component as built by the constructor. -/
def initialBar : PerspectiveBar :=
  { mounted := true
    ignoreStateChangeCounter := 0
    lastState := none
    storageRef := none
    workbenchRef := none
    state :=
      { counter := 0
        error := false
        perspectives := none
        promise := false
        selectedPerspectiveId := none } }

/-- `getDerivedStateFromProps`: in controlled mode the selected id in state
is copied from props. -/
def getDerivedStateFromProps (props : Props) (bar : PerspectiveBar) :
    PerspectiveBar :=
  if props.hasSelectedPerspectiveId then
    setBarState bar fun s =>
      { s with selectedPerspectiveId := props.selectedPerspectiveId }
  else bar

/-- `_cancelLoading`. -/
def cancelLoading (bar : PerspectiveBar) : PerspectiveBar :=
  setBarState bar fun s => { s with promise := false }

/-- `_forceReload`. -/
def forceReload (bar : PerspectiveBar) : PerspectiveBar :=
  setBarState bar fun s =>
    { s with
      counter := 1 - s.counter
      error := false
      perspectives := none
      promise := false }

/-- `_onStorageChanged`: toggles the dummy counter to force an update. -/
def onStorageChanged (bar : PerspectiveBar) : PerspectiveBar :=
  setBarState bar fun s => { s with counter := 1 - s.counter }

/-- `_currentPerspectiveNeedsSavingAfterChange`. -/
def currentPerspectiveNeedsSavingAfterChange (bar : PerspectiveBar)
    (newState : IWorkbenchState) : Bool :=
  match bar.state.selectedPerspectiveId, bar.lastState with
  | some _, some ls => !areWorkbenchStatesEqualIgnoringSelection ls newState
  | _, _ => false

/-- `_loadPerspectiveById`.  When the storage is absent the operation warns
and stops; when the workbench is absent the source warns and then
dereferences the absent workbench (`workbench.getState()`), throwing a
`TypeError` before any field or state write. -/
def loadPerspectiveById (props : Props) (id : String)
    (bar : PerspectiveBar) : Res :=
  match props.storage with
  | none =>
      ⟨bar,
        [.warn "No perspective storage while loading perspective by ID; this is probably a bug."],
        none⟩
  | some storage =>
      match storage.loadFn id with
      | none => ⟨bar, [.load id], some "StorageError"⟩
      | some perspective =>
          match props.workbench with
          | some workbench =>
              let bar :=
                { bar with
                  ignoreStateChangeCounter :=
                    bar.ignoreStateChangeCounter + 1 }
              let bar :=
                { bar with
                  lastState := some (workbench.restoredView perspective.state) }
              let bar :=
                setBarState bar fun s =>
                  { s with selectedPerspectiveId := some id }
              ⟨bar, [.load id, .restoreState perspective.state], none⟩
          | none =>
              ⟨bar,
                [.load id,
                 .warn "Workbench is gone while the perspective was being loaded; this is probably a bug."],
                some "TypeError"⟩

/-- `_updateCurrentPerspectiveWith`. -/
def updateCurrentPerspectiveWith (props : Props)
    (newState : IWorkbenchState) (persist : Bool)
    (bar : PerspectiveBar) : Res :=
  match props.storage with
  | none =>
      ⟨bar,
        [.warn "No perspective storage while saving perspective; this is probably a bug."],
        none⟩
  | some _ =>
      match bar.state.selectedPerspectiveId with
      | none => ⟨bar, [], none⟩
      | some id =>
          let bar := { bar with lastState := some newState }
          ⟨bar,
            [.update id newState] ++
              (if persist then [.persistModifications id] else []),
            none⟩

/-- `_updateCurrentPerspective`: reads `workbench.getState()` from props,
throwing when the workbench is absent. -/
def updateCurrentPerspective (props : Props) (persist : Bool)
    (bar : PerspectiveBar) : Res :=
  match props.workbench with
  | none => ⟨bar, [], some "TypeError"⟩
  | some wb => updateCurrentPerspectiveWith props wb.getStateFn persist bar

/-- `_onWorkbenchChanged`: a positive suppression counter absorbs the
notification; otherwise the new workbench state is compared to the
baseline and autosaved as a working modification when different. -/
def onWorkbenchChanged (props : Props) (bar : PerspectiveBar) : Res :=
  if 0 < bar.ignoreStateChangeCounter then
    ⟨{ bar with
        ignoreStateChangeCounter := bar.ignoreStateChangeCounter - 1 },
      [], none⟩
  else
    match props.workbench with
    | none => ⟨bar, [], some "TypeError"⟩
    | some wb =>
        if currentPerspectiveNeedsSavingAfterChange bar wb.getStateFn then
          updateCurrentPerspectiveWith props wb.getStateFn false bar
        else ⟨bar, [], none⟩

/-- `_requestSelectedPerspectiveIdChange`: uncontrolled mode sets the state
directly; controlled mode delegates to `onChange`, which may veto. -/
def requestSelectedPerspectiveIdChange (props : Props) (id : String)
    (bar : PerspectiveBar) : PerspectiveBar × Bool :=
  if !props.hasSelectedPerspectiveId then
    (setBarState bar fun s => { s with selectedPerspectiveId := some id },
      true)
  else
    match props.onChange with
    | some f => (bar, !(f id))
    | none => (bar, false)

/-- `_createNewPerspective`.  Destructuring `environment` from an absent
workbench throws before anything else happens. -/
def createNewPerspective (props : Props) (bar : PerspectiveBar) : Res :=
  match props.workbench with
  | none => ⟨bar, [], some "TypeError"⟩
  | some wb =>
      let draft : IPerspective := { label := "", state := wb.getStateFn }
      let answer := wb.onCreating draft
      if answer.1 then
        match props.storage with
        | some s =>
            let enriched := answer.2
            let id := s.saveFn enriched
            let bar := (requestSelectedPerspectiveIdChange props id bar).1
            let bar := { bar with lastState := some enriched.state }
            ⟨bar, [.envOnCreating draft, .save enriched], none⟩
        | none =>
            ⟨bar,
              [.envOnCreating draft,
               .warn "No perspective storage while creating new perspective; this is probably a bug."],
              none⟩
      else ⟨bar, [.envOnCreating draft], none⟩

/-- The confirmation message of the revert path. -/
def revertConfirmMsg : String :=
  "Are you sure you want to revert the perspective to its last saved state?"

/-- `_revertModificationsOfCurrentPerspective`. -/
def revertModificationsOfCurrentPerspective (props : Props)
    (bar : PerspectiveBar) : Res :=
  match props.storage with
  | none =>
      ⟨bar,
        [.warn "No perspective storage while reverting perspective by ID; this is probably a bug."],
        none⟩
  | some s =>
      match bar.state.selectedPerspectiveId with
      | some sid =>
          if s.isModifiedFn (some sid) then
            match props.workbench with
            | none => ⟨bar, [], some "TypeError"⟩
            | some wb =>
                if wb.envConfirm then
                  let r := loadPerspectiveById props sid bar
                  ⟨r.bar,
                    [.envConfirm revertConfirmMsg,
                     .revertModifications sid] ++ r.trace,
                    r.thrown⟩
                else ⟨bar, [.envConfirm revertConfirmMsg], none⟩
          else ⟨bar, [], none⟩
      | none => ⟨bar, [], none⟩

/-- `_onPerspectiveButtonClicked`. -/
def onPerspectiveButtonClicked (props : Props) (id : String)
    (bar : PerspectiveBar) : Res :=
  if bar.state.selectedPerspectiveId == some id then
    revertModificationsOfCurrentPerspective props bar
  else
    match props.onChange with
    | some f =>
        if f id then ⟨bar, [], none⟩ else loadPerspectiveById props id bar
    | none => loadPerspectiveById props id bar

/-- `_startLoadingIfNeeded`: starts an enumeration when a storage is
present, no promise is stored and no list is loaded.  The `.then`
continuations are modelled separately by `enumerationSucceeded` /
`enumerationFailed`. -/
def startLoadingIfNeeded (props : Props) (bar : PerspectiveBar) :
    PerspectiveBar × List Call :=
  match props.storage with
  | some _ =>
      if !bar.state.promise && bar.state.perspectives == none then
        (setBarState bar fun s => { s with promise := true },
          [Call.enumerate])
      else (bar, [])
  | none => (bar, [])

/-- Success continuation of the loading promise: stores the freshly
enumerated list, clears the error flag and the promise.  The source
attaches it with no attached-or-superseded guard. -/
def enumerationSucceeded (bar : PerspectiveBar)
    (res : List (String × IPerspective)) : PerspectiveBar :=
  setBarState bar fun s =>
    { s with error := false, perspectives := some res, promise := false }

/-- Failure continuation of the loading promise: sets the error flag and
clears the promise; the source deliberately does not touch
`perspectives` ("Don't forget the previous set of perspectives"). -/
def enumerationFailed (bar : PerspectiveBar) : PerspectiveBar :=
  setBarState bar fun s => { s with error := true, promise := false }

/-- Eventual completion of the enumeration started on storage `s`. -/
def completeEnumeration (s : Storage) (bar : PerspectiveBar) :
    PerspectiveBar :=
  match s.enumerateFn with
  | some res => enumerationSucceeded bar res
  | none => enumerationFailed bar

/-- `_setStorage`: reference-equality gated; on an actual swap it
unsubscribes from the old storage, forces a reload and subscribes to the
new one. -/
def setStorage (value : Option Storage) (bar : PerspectiveBar) :
    PerspectiveBar × List Call :=
  if bar.storageRef == value.map (·.sid) then (bar, [])
  else
    let tr₁ : List Call :=
      if bar.storageRef.isSome then [Call.unsubscribe] else []
    let bar := { bar with storageRef := value.map (·.sid) }
    let bar := forceReload bar
    let tr₂ : List Call :=
      if (value.map (·.sid)).isSome then [Call.subscribe] else []
    (bar, tr₁ ++ tr₂)

/-- `_setWorkbench`: reference-equality gated resubscription to
`stateChanged`. -/
def setWorkbench (value : Option Workbench) (bar : PerspectiveBar) :
    PerspectiveBar × List Call :=
  if bar.workbenchRef == value.map (·.wid) then (bar, [])
  else
    let tr₁ : List Call :=
      if bar.workbenchRef.isSome then [Call.wbOff] else []
    let bar := { bar with workbenchRef := value.map (·.wid) }
    let tr₂ : List Call :=
      if (value.map (·.wid)).isSome then [Call.wbOn] else []
    (bar, tr₁ ++ tr₂)

/-- Shared body of `componentDidMount` and `componentDidUpdate`. -/
def componentDidUpdate (props : Props) (bar : PerspectiveBar) :
    PerspectiveBar × List Call :=
  let r₁ := setStorage props.storage bar
  let r₂ := setWorkbench props.workbench r₁.1
  let r₃ := startLoadingIfNeeded props r₂.1
  (r₃.1, r₁.2 ++ r₂.2 ++ r₃.2)

/-- `componentDidMount`. -/
def componentDidMount (props : Props) (bar : PerspectiveBar) :
    PerspectiveBar × List Call :=
  componentDidUpdate props bar

/-- `componentWillUnmount` followed by React marking the instance
unmounted. -/
def unmount (bar : PerspectiveBar) : PerspectiveBar × List Call :=
  let r₁ := setStorage none bar
  let r₂ := setWorkbench none r₁.1
  let bar := cancelLoading r₂.1
  ({ bar with mounted := false }, r₁.2 ++ r₂.2)

/-! ## Concrete sample data for counterexamples and witnesses -/

/-- A sample workbench state. -/
def sampleState : IWorkbenchState := ⟨[("panel", 1)], none⟩

/-- A second, different sample workbench state. -/
def sampleState2 : IWorkbenchState := ⟨[("panel", 2)], none⟩

/-- A sample state differing from `sampleState` only in the selection. -/
def sampleStateSel : IWorkbenchState := ⟨[("panel", 1)], some "x"⟩

/-- A sample perspective. -/
def perspA : IPerspective := { label := "A", state := sampleState }

/-- Another sample perspective. -/
def perspB : IPerspective := { label := "B", state := sampleState2 }

/-- A one-element perspective list. -/
def listA : List (String × IPerspective) := [("A", perspA)]

/-- A different one-element perspective list. -/
def listB : List (String × IPerspective) := [("B", perspB)]

/-- A storage whose loads succeed with `perspA`, whose enumeration yields
`listA`, and which reports every perspective as modified. -/
def wStorage : Storage :=
  { sid := 1
    loadFn := fun _ => some perspA
    saveFn := fun _ => "fresh"
    isModifiedFn := fun _ => true
    enumerateFn := some listA }

/-- A storage reporting no perspective as modified. -/
def wStorageUnmod : Storage :=
  { sid := 2
    loadFn := fun _ => some perspA
    saveFn := fun _ => "fresh"
    isModifiedFn := fun _ => false
    enumerateFn := some listA }

/-- A storage whose loads and enumeration fail (rejected promises). -/
def wStorageFail : Storage :=
  { sid := 3
    loadFn := fun _ => none
    saveFn := fun _ => "f"
    isModifiedFn := fun _ => false
    enumerateFn := none }

/-- A second succeeding storage, distinct from `wStorage`, enumerating
`listB`. -/
def wStorageB : Storage :=
  { sid := 4
    loadFn := fun _ => some perspB
    saveFn := fun _ => "fresh2"
    isModifiedFn := fun _ => false
    enumerateFn := some listB }

/-- A workbench whose environment confirms every prompt and accepts every
draft unchanged. -/
def wbConfirm : Workbench :=
  { wid := 1
    getStateFn := sampleState2
    restoredView := fun s => s
    envConfirm := true
    onCreating := fun p => (true, p) }

/-- A workbench whose environment rejects every prompt and every draft. -/
def wbReject : Workbench :=
  { wid := 2
    getStateFn := sampleState2
    restoredView := fun s => s
    envConfirm := false
    onCreating := fun p => (false, p) }

/-- Uncontrolled props (no `selectedPerspectiveId` key, no `onChange`). -/
def mkProps (st : Option Storage) (wb : Option Workbench) : Props :=
  { onChange := none
    hasSelectedPerspectiveId := false
    storage := st
    workbench := wb }

/-- Controlled props: the `selectedPerspectiveId` key is present (with the
given value) and no `onChange` handler is registered. -/
def mkControlledProps (sel : Option String) (st : Option Storage)
    (wb : Option Workbench) : Props :=
  { onChange := none
    hasSelectedPerspectiveId := true
    selectedPerspectiveId := sel
    storage := st
    workbench := wb }

/-- A mounted component with perspective `"A"` selected. -/
def barSelectedA : PerspectiveBar :=
  { initialBar with
    state := { initialBar.state with selectedPerspectiveId := some "A" } }

/-- A mounted component attached to `wStorage` and `wbConfirm` with the
list `listA` already loaded and no fetch in flight. -/
def barLoadedA : PerspectiveBar :=
  { initialBar with
    storageRef := some 1
    workbenchRef := some 1
    state := { initialBar.state with perspectives := some listA } }

/-- An unmounted component. -/
def barUnmounted : PerspectiveBar :=
  { initialBar with mounted := false }

/-! ## Claims -/

/-- C9: two workbench states identical except in the selection sub-field
compare equal under `areWorkbenchStatesEqualIgnoringSelection`; states
differing in any other field compare unequal.  Totality (never throwing,
always returning a boolean) is inherent in the function being a total
`Bool`-valued Lean function on all of `IWorkbenchState`. -/
theorem C9_equalIgnoringSelection (a b : IWorkbenchState) :
    areWorkbenchStatesEqualIgnoringSelection a b = true ↔
      a.content = b.content := by
  simp [areWorkbenchStatesEqualIgnoringSelection]

/-- C1: a `stateChanged` notification arriving while the suppression
counter is positive decrements the counter by one and performs nothing
else (no autosave, no storage call, no other mutation); and the single
notification fired as a direct result of `restoreState` inside a
perspective load consumes exactly the one suppression increment made by
`_loadPerspectiveById` and never produces a `storage.update`. -/
theorem C1_suppression (props : Props) (bar : PerspectiveBar) :
    (0 < bar.ignoreStateChangeCounter →
      onWorkbenchChanged props bar =
        ⟨{ bar with
            ignoreStateChangeCounter := bar.ignoreStateChangeCounter - 1 },
          [], none⟩) ∧
    (∀ (s : Storage) (wb : Workbench) (id : String) (p : IPerspective),
      props.storage = some s → props.workbench = some wb →
      s.loadFn id = some p →
      (loadPerspectiveById props id bar).bar.ignoreStateChangeCounter =
          bar.ignoreStateChangeCounter + 1 ∧
        (onWorkbenchChanged props
            (loadPerspectiveById props id bar).bar).bar.ignoreStateChangeCounter =
          bar.ignoreStateChangeCounter ∧
        (onWorkbenchChanged props (loadPerspectiveById props id bar).bar).trace =
          [] ∧
        hasUpdate
            ((loadPerspectiveById props id bar).trace ++
              (onWorkbenchChanged props (loadPerspectiveById props id bar).bar).trace) =
          false) := by
  constructor
  · intro hpos
    simp [onWorkbenchChanged, hpos]
  · intro s wb id p hs hw hp
    simp [loadPerspectiveById, hs, hw, hp, onWorkbenchChanged, setBarState,
      hasUpdate, Call.isUpdate, apply_ite]

/-- Witness for `C1_suppression` at a concrete input: a suppressed
notification only decrements the counter, and the notification triggered by
the restore inside a perspective load causes no `storage.update`. -/
theorem C1_suppression_witness :
    onWorkbenchChanged (mkProps (some wStorage) (some wbConfirm))
        { initialBar with ignoreStateChangeCounter := 1 } =
      ⟨{ initialBar with ignoreStateChangeCounter := 1 - 1 }, [], none⟩ ∧
    hasUpdate
        ((loadPerspectiveById (mkProps (some wStorage) (some wbConfirm)) "A"
              initialBar).trace ++
          (onWorkbenchChanged (mkProps (some wStorage) (some wbConfirm))
              (loadPerspectiveById (mkProps (some wStorage) (some wbConfirm))
                  "A" initialBar).bar).trace) =
      false :=
  ⟨(C1_suppression (mkProps (some wStorage) (some wbConfirm))
      { initialBar with ignoreStateChangeCounter := 1 }).1 (by decide),
    ((C1_suppression (mkProps (some wStorage) (some wbConfirm)) initialBar).2
        wStorage wbConfirm "A" perspA rfl rfl rfl).2.2.2⟩

/-- C2: clicking the perspective whose id equals the current selection
enters the revert path only: with `isModified` false the click performs no
calls at all; with `isModified` true but the confirmation rejected it only
prompts, making no storage call; with `isModified` true and the
confirmation accepted its storage calls are exactly
`revertModifications id` followed by `load id`. -/
theorem C2_revert_path (props : Props) (bar : PerspectiveBar) (id : String)
    (s : Storage) (wb : Workbench)
    (hsel : bar.state.selectedPerspectiveId = some id)
    (hs : props.storage = some s) (hw : props.workbench = some wb) :
    (s.isModifiedFn (some id) = false →
      onPerspectiveButtonClicked props id bar = ⟨bar, [], none⟩) ∧
    (s.isModifiedFn (some id) = true → wb.envConfirm = false →
      onPerspectiveButtonClicked props id bar =
        ⟨bar, [.envConfirm revertConfirmMsg], none⟩) ∧
    (s.isModifiedFn (some id) = true → wb.envConfirm = true →
      storageOps (onPerspectiveButtonClicked props id bar).trace =
        [.revertModifications id, .load id]) := by
  refine ⟨?_, ?_, ?_⟩
  · intro hm
    simp [onPerspectiveButtonClicked, hsel,
      revertModificationsOfCurrentPerspective, hs, hm]
  · intro hm hc
    simp [onPerspectiveButtonClicked, hsel,
      revertModificationsOfCurrentPerspective, hs, hm, hw, hc]
  · intro hm hc
    cases hload : s.loadFn id with
    | none =>
        simp [onPerspectiveButtonClicked, hsel,
          revertModificationsOfCurrentPerspective, hs, hm, hw, hc,
          loadPerspectiveById, hload, storageOps, Call.isStorageOp]
    | some p =>
        simp [onPerspectiveButtonClicked, hsel,
          revertModificationsOfCurrentPerspective, hs, hm, hw, hc,
          loadPerspectiveById, hload, storageOps, Call.isStorageOp]

/-- Witness for `C2_revert_path` at a concrete input: with the perspective
modified and the confirmation accepted, the storage calls of the click are
exactly the revert followed by the reload. -/
theorem C2_revert_path_witness :
    wStorage.isModifiedFn (some "A") = true ∧
    wbConfirm.envConfirm = true ∧
    storageOps
        (onPerspectiveButtonClicked (mkProps (some wStorage) (some wbConfirm))
            "A" barSelectedA).trace =
      [.revertModifications "A", .load "A"] :=
  ⟨rfl, rfl,
    (C2_revert_path (mkProps (some wStorage) (some wbConfirm)) barSelectedA
        "A" wStorage wbConfirm rfl rfl rfl).2.2 rfl rfl⟩

/-- C10: a non-suppressed `stateChanged` notification leads to a
`storage.update` only when a perspective is selected and a baseline
`_lastState` has been recorded; with no baseline the notification is a
complete no-op, and in particular in controlled mode (selection supplied
via props) with no prior perspective load, workbench changes never write to
storage. -/
theorem C10_autosave_guard (props : Props) (bar : PerspectiveBar)
    (h0 : bar.ignoreStateChangeCounter = 0) :
    (hasUpdate (onWorkbenchChanged props bar).trace = true →
      bar.state.selectedPerspectiveId.isSome = true ∧
        bar.lastState.isSome = true) ∧
    (bar.lastState = none →
      (onWorkbenchChanged props bar).trace = [] ∧
        (onWorkbenchChanged props bar).bar = bar) ∧
    (props.hasSelectedPerspectiveId = true → bar.lastState = none →
      hasUpdate
          (onWorkbenchChanged props (getDerivedStateFromProps props bar)).trace =
        false) := by
  have key : ∀ b : PerspectiveBar, b.ignoreStateChangeCounter = 0 →
      b.lastState = none →
      (onWorkbenchChanged props b).trace = [] ∧
        (onWorkbenchChanged props b).bar = b := by
    intro b hb0 hbn
    cases hwb : props.workbench with
    | none => simp [onWorkbenchChanged, hb0, hwb]
    | some wb =>
        cases hsel : b.state.selectedPerspectiveId <;>
          simp [onWorkbenchChanged, hb0, hwb,
            currentPerspectiveNeedsSavingAfterChange, hsel, hbn]
  refine ⟨?_, fun hln => key bar h0 hln, ?_⟩
  · intro hu
    cases hwb : props.workbench with
    | none => simp [onWorkbenchChanged, h0, hwb, hasUpdate] at hu
    | some wb =>
        cases hsel : bar.state.selectedPerspectiveId with
        | none =>
            simp [onWorkbenchChanged, h0, hwb,
              currentPerspectiveNeedsSavingAfterChange, hsel, hasUpdate] at hu
        | some sid =>
            cases hls : bar.lastState with
            | none =>
                simp [onWorkbenchChanged, h0, hwb,
                  currentPerspectiveNeedsSavingAfterChange, hsel, hls,
                  hasUpdate] at hu
            | some ls => simp [hsel, hls]
  · intro hctl hln
    have hd1 : (getDerivedStateFromProps props bar).ignoreStateChangeCounter
        = 0 := by
      simp [getDerivedStateFromProps, hctl, setBarState, apply_ite, h0]
    have hd2 : (getDerivedStateFromProps props bar).lastState = none := by
      simp [getDerivedStateFromProps, hctl, setBarState, apply_ite, hln]
    have h2 := key (getDerivedStateFromProps props bar) hd1 hd2
    simp [h2.1, hasUpdate]

/-- Witness for `C10_autosave_guard` at a concrete input: a controlled
component with no prior load autosaves nothing on a workbench change. -/
theorem C10_autosave_guard_witness :
    initialBar.ignoreStateChangeCounter = 0 ∧
    hasUpdate
        (onWorkbenchChanged
            (mkControlledProps (some "A") (some wStorage) (some wbConfirm))
            (getDerivedStateFromProps
              (mkControlledProps (some "A") (some wStorage) (some wbConfirm))
              initialBar)).trace =
      false :=
  ⟨rfl,
    (C10_autosave_guard
        (mkControlledProps (some "A") (some wStorage) (some wbConfirm))
        initialBar rfl).2.2 rfl rfl⟩

/-- Counterexample to C3: with the list `listA` already loaded and no fetch
in flight, a storage change notification followed by the resulting
component update starts no enumeration at all and leaves the loaded list in
place — the perspective list is not refetched. -/
theorem C3_counterexample :
    countEnumerations
        (componentDidUpdate (mkProps (some wStorage) (some wbConfirm))
            (onStorageChanged barLoadedA)).2 = 0 ∧
    (componentDidUpdate (mkProps (some wStorage) (some wbConfirm))
        (onStorageChanged barLoadedA)).1.state.perspectives = some listA := by
  exact ⟨rfl, rfl⟩

/-- C3 amended: a storage change notification merely toggles the dummy
counter to force a re-render; while a perspective list is already loaded
(and no fetch is in flight) the subsequent component update starts no new
enumeration and keeps the loaded list unchanged. -/
theorem C3_storage_change_no_reload (props : Props) (bar : PerspectiveBar)
    (s : Storage) (wb : Workbench) (l : List (String × IPerspective))
    (hs : props.storage = some s) (hw : props.workbench = some wb)
    (hsr : bar.storageRef = some s.sid)
    (hwr : bar.workbenchRef = some wb.wid)
    (hm : bar.mounted = true) (hp : bar.state.perspectives = some l) :
    countEnumerations
        (componentDidUpdate props (onStorageChanged bar)).2 = 0 ∧
    (componentDidUpdate props (onStorageChanged bar)).1.state.perspectives =
      some l ∧
    (componentDidUpdate props (onStorageChanged bar)).1.state.counter =
      1 - bar.state.counter := by
  simp [componentDidUpdate, setStorage, setWorkbench, startLoadingIfNeeded,
    onStorageChanged, setBarState, hm, hs, hw, hsr, hwr, hp,
    countEnumerations]

/-- Witness for `C3_storage_change_no_reload` at a concrete input. -/
theorem C3_storage_change_no_reload_witness :
    barLoadedA.mounted = true ∧
    barLoadedA.state.perspectives = some listA ∧
    countEnumerations
        (componentDidUpdate (mkProps (some wStorage) (some wbConfirm))
            (onStorageChanged barLoadedA)).2 = 0 ∧
    (componentDidUpdate (mkProps (some wStorage) (some wbConfirm))
        (onStorageChanged barLoadedA)).1.state.counter =
      1 - barLoadedA.state.counter :=
  ⟨rfl, rfl,
    (C3_storage_change_no_reload (mkProps (some wStorage) (some wbConfirm))
        barLoadedA wStorage wbConfirm listA rfl rfl rfl rfl rfl rfl).1,
    (C3_storage_change_no_reload (mkProps (some wStorage) (some wbConfirm))
        barLoadedA wStorage wbConfirm listA rfl rfl rfl rfl rfl rfl).2.2⟩

/-- Counterexample to C4: an enumeration superseded by a forced reload is
not ignored.  Mount with `wStorage` (its enumeration still in flight), swap
to `wStorageB` (forced reload, new enumeration); the new enumeration
completes first and stores `listB`, then the superseded one completes and
overwrites the state with `listA`. -/
theorem C4_counterexample :
    (completeEnumeration wStorageB
        (componentDidUpdate (mkProps (some wStorageB) (some wbConfirm))
            (componentDidMount (mkProps (some wStorage) (some wbConfirm))
                initialBar).1).1).state.perspectives = some listB ∧
    (completeEnumeration wStorage
        (completeEnumeration wStorageB
          (componentDidUpdate (mkProps (some wStorageB) (some wbConfirm))
              (componentDidMount (mkProps (some wStorage) (some wbConfirm))
                  initialBar).1).1)).state.perspectives = some listA ∧
    listA ≠ listB := by
  exact ⟨rfl, rfl, by decide⟩

/-- C4 amended: after the component is unmounted a late enumeration
completion mutates nothing (React discards `setState` on an unmounted
instance; the code itself contains no guard); while the component is
mounted, however, a completion always applies — the controller performs no
superseded-fetch check, so a forced reload does not make a prior
enumeration's completion be ignored. -/
theorem C4_completion_guards (s : Storage) (bar : PerspectiveBar) :
    (bar.mounted = false → completeEnumeration s bar = bar) ∧
    (∀ res, bar.mounted = true → s.enumerateFn = some res →
      (completeEnumeration s bar).state.perspectives = some res) := by
  constructor
  · intro hm
    cases he : s.enumerateFn <;>
      simp [completeEnumeration, he, enumerationSucceeded,
        enumerationFailed, setBarState, hm]
  · intro res hm he
    simp [completeEnumeration, he, enumerationSucceeded, setBarState, hm]

/-- Witness for `C4_completion_guards` at concrete inputs. -/
theorem C4_completion_guards_witness :
    barUnmounted.mounted = false ∧
    completeEnumeration wStorage barUnmounted = barUnmounted ∧
    initialBar.mounted = true ∧
    wStorageB.enumerateFn = some listB ∧
    (completeEnumeration wStorageB initialBar).state.perspectives =
      some listB :=
  ⟨rfl, (C4_completion_guards wStorage barUnmounted).1 rfl, rfl, rfl,
    (C4_completion_guards wStorageB initialBar).2 listB rfl rfl⟩

/-- C5 code-bug evidence: with a storage present but the workbench absent,
`_loadPerspectiveById` logs its "this is probably a bug" diagnostic and
then immediately dereferences the absent workbench
(`this._lastState = workbench.getState()`), throwing a `TypeError` instead
of being a no-op; `_createNewPerspective` with an absent workbench throws
before logging anything at all. -/
theorem C5_workbench_absent_throws :
    loadPerspectiveById (mkProps (some wStorage) none) "A" initialBar =
      ⟨initialBar,
        [.load "A",
         .warn "Workbench is gone while the perspective was being loaded; this is probably a bug."],
        some "TypeError"⟩ ∧
    createNewPerspective (mkProps (some wStorage) none) initialBar =
      ⟨initialBar, [], some "TypeError"⟩ := by
  exact ⟨rfl, rfl⟩

/-- C6: replacing the storage collaborator with a different instance clears
the loaded list, the error flag and the stored promise, and the subsequent
loading check starts exactly one new enumeration of the new storage. -/
theorem C6_storage_swap (props : Props) (bar : PerspectiveBar) (s : Storage)
    (hs : props.storage = some s) (hne : bar.storageRef ≠ some s.sid)
    (hm : bar.mounted = true) :
    (setStorage (some s) bar).1.state.perspectives = none ∧
    (setStorage (some s) bar).1.state.error = false ∧
    (setStorage (some s) bar).1.state.promise = false ∧
    (startLoadingIfNeeded props (setStorage (some s) bar).1).1.state.promise =
      true ∧
    countEnumerations
        ((setStorage (some s) bar).2 ++
          (startLoadingIfNeeded props (setStorage (some s) bar).1).2) = 1 := by
  cases hsr : bar.storageRef with
  | none =>
      simp [setStorage, hsr, forceReload, setBarState, hm,
        startLoadingIfNeeded, hs, countEnumerations]
  | some old =>
      have hold : ¬ old = s.sid := by
        rw [hsr] at hne
        simpa using hne
      simp [setStorage, hsr, hold, forceReload, setBarState, hm,
        startLoadingIfNeeded, hs, countEnumerations]

/-- Witness for `C6_storage_swap` at a concrete input: swapping from
`wStorage` to `wStorageB`. -/
theorem C6_storage_swap_witness :
    barLoadedA.storageRef ≠ some wStorageB.sid ∧
    (setStorage (some wStorageB) barLoadedA).1.state.perspectives = none ∧
    countEnumerations
        ((setStorage (some wStorageB) barLoadedA).2 ++
          (startLoadingIfNeeded (mkProps (some wStorageB) (some wbConfirm))
              (setStorage (some wStorageB) barLoadedA).1).2) = 1 :=
  ⟨by decide,
    (C6_storage_swap (mkProps (some wStorageB) (some wbConfirm)) barLoadedA
        wStorageB rfl (by decide) rfl).1,
    (C6_storage_swap (mkProps (some wStorageB) (some wbConfirm)) barLoadedA
        wStorageB rfl (by decide) rfl).2.2.2.2⟩

/-- Counterexample to C7: in controlled mode (the `selectedPerspectiveId`
prop key present, no `onChange` handler) `createPerspective` succeeds —
the environment confirms the draft and `storage.save` assigns the id
`"fresh"` — yet the controller's selected perspective id does not become
the newly assigned id. -/
theorem C7_counterexample :
    (createNewPerspective
        (mkControlledProps none (some wStorage) (some wbConfirm))
        initialBar).trace =
      [.envOnCreating { label := "", state := sampleState2 },
       .save { label := "", state := sampleState2 }] ∧
    (createNewPerspective
        (mkControlledProps none (some wStorage) (some wbConfirm))
        initialBar).bar.state.selectedPerspectiveId ≠ some "fresh" := by
  exact ⟨rfl, by decide⟩

/-- C7 amended: after `createPerspective` succeeds, `lastKnownSavedState`
equals the (possibly enriched) draft's state; in uncontrolled mode the
selected id becomes the newly assigned id, while in controlled mode the
id is only offered to the parent via `onChange` and the controller's own
selection state is unchanged.  When the environment rejects the draft,
nothing changes and no storage call is made. -/
theorem C7_create (props : Props) (bar : PerspectiveBar) (wb : Workbench)
    (s : Storage) (hw : props.workbench = some wb)
    (hs : props.storage = some s) (hm : bar.mounted = true) :
    (∀ d, wb.onCreating { label := "", state := wb.getStateFn } = (true, d) →
      (createNewPerspective props bar).bar.lastState = some d.state ∧
      (props.hasSelectedPerspectiveId = false →
        (createNewPerspective props bar).bar.state.selectedPerspectiveId =
          some (s.saveFn d)) ∧
      (props.hasSelectedPerspectiveId = true →
        (createNewPerspective props bar).bar.state.selectedPerspectiveId =
          bar.state.selectedPerspectiveId)) ∧
    (∀ d, wb.onCreating { label := "", state := wb.getStateFn } = (false, d) →
      createNewPerspective props bar =
        ⟨bar, [.envOnCreating { label := "", state := wb.getStateFn }],
          none⟩) := by
  constructor
  · intro d hd
    cases hctl : props.hasSelectedPerspectiveId with
    | false =>
        simp [createNewPerspective, hw, hs, hd,
          requestSelectedPerspectiveIdChange, hctl, setBarState, hm]
    | true =>
        cases hoc : props.onChange with
        | none =>
            simp [createNewPerspective, hw, hs, hd,
              requestSelectedPerspectiveIdChange, hctl, hoc]
        | some f =>
            simp [createNewPerspective, hw, hs, hd,
              requestSelectedPerspectiveIdChange, hctl, hoc]
  · intro d hd
    simp [createNewPerspective, hw, hd]

/-- Witness for `C7_create` at a concrete input: uncontrolled mode, draft
confirmed unchanged, new id `"fresh"` adopted and the baseline set to the
draft's state. -/
theorem C7_create_witness :
    wbConfirm.onCreating { label := "", state := wbConfirm.getStateFn } =
      (true, { label := "", state := wbConfirm.getStateFn }) ∧
    (createNewPerspective (mkProps (some wStorage) (some wbConfirm))
        initialBar).bar.lastState = some wbConfirm.getStateFn ∧
    (createNewPerspective (mkProps (some wStorage) (some wbConfirm))
        initialBar).bar.state.selectedPerspectiveId =
      some (wStorage.saveFn { label := "", state := wbConfirm.getStateFn }) :=
  ⟨rfl,
    ((C7_create (mkProps (some wStorage) (some wbConfirm)) initialBar
          wbConfirm wStorage rfl rfl rfl).1
        { label := "", state := wbConfirm.getStateFn } rfl).1,
    (((C7_create (mkProps (some wStorage) (some wbConfirm)) initialBar
          wbConfirm wStorage rfl rfl rfl).1
        { label := "", state := wbConfirm.getStateFn } rfl).2.1 rfl)⟩

/-- Counterexample to C8: mount with the failing storage `wStorageFail`
(its enumeration still pending), swap to `wStorageB` (forced reload, new
enumeration); the new enumeration succeeds and stores `listB`, then the
superseded one fails and sets the error flag — leaving the error flag true
with a populated perspectives list. -/
theorem C8_counterexample :
    (completeEnumeration wStorageFail
        (completeEnumeration wStorageB
          (componentDidUpdate (mkProps (some wStorageB) (some wbConfirm))
              (componentDidMount
                  (mkProps (some wStorageFail) (some wbConfirm))
                  initialBar).1).1)).state.error = true ∧
    (completeEnumeration wStorageFail
        (completeEnumeration wStorageB
          (componentDidUpdate (mkProps (some wStorageB) (some wbConfirm))
              (componentDidMount
                  (mkProps (some wStorageFail) (some wbConfirm))
                  initialBar).1).1)).state.perspectives = some listB := by
  exact ⟨rfl, rfl⟩

/-- C8 amended: the failure continuation of an enumeration sets the error
flag and clears the in-flight marker, never populates the list, and
deliberately preserves whatever list is already loaded — so the error flag
and a populated list are mutually exclusive only while no superseded
enumeration outcome interferes. -/
theorem C8_failure_semantics (bar : PerspectiveBar)
    (hm : bar.mounted = true) :
    (enumerationFailed bar).state.error = true ∧
    (enumerationFailed bar).state.promise = false ∧
    (enumerationFailed bar).state.perspectives = bar.state.perspectives := by
  simp [enumerationFailed, setBarState, hm]

/-- Witness for `C8_failure_semantics` at a concrete input. -/
theorem C8_failure_semantics_witness :
    barLoadedA.mounted = true ∧
    (enumerationFailed barLoadedA).state.error = true ∧
    (enumerationFailed barLoadedA).state.perspectives =
      barLoadedA.state.perspectives :=
  ⟨rfl, (C8_failure_semantics barLoadedA rfl).1,
    (C8_failure_semantics barLoadedA rfl).2.2⟩
